import Mathlib

set_option maxRecDepth 8192

/-!
Verification of the target-matrix compilation-and-analysis pipeline of the
`code.simd` extension: the CPU/target catalog, the host-compatibility filter,
the toolchain driver (header composition, compiler and simulator command
construction, workspace lifecycle), and the llvm-mca report parser.

The embedding works on `List Char` for text so that the JavaScript string
and regex operations of the source can be modelled precisely.  JavaScript
regex matching for the concrete patterns used by the source is deterministic
up to a small amount of backtracking, which is reproduced explicitly where
it matters (see `rowTail`).
-/

namespace CodeSimd

/-- The JavaScript `\s` character class, restricted to the code points that
can actually occur in tool output handled by this program (ASCII whitespace
plus NBSP and BOM; the remaining exotic Unicode space separators of the full
JS class are omitted from the model). -/
def jsSpace (c : Char) : Bool :=
  c = ' ' || c = '\t' || c = '\n' || c = '\r' || c = '\x0b' || c = '\x0c' ||
  c = Char.ofNat 0xa0 || c = Char.ofNat 0xfeff

/-- Characters matched by the JavaScript regex `.` (dot): everything except
line terminators. -/
def dotOk (c : Char) : Bool :=
  c ≠ '\n' && c ≠ '\r' && c ≠ Char.ofNat 0x2028 && c ≠ Char.ofNat 0x2029

/-- Maximal prefix satisfying `p`, together with the rest (greedy scan). -/
def spanP (p : Char → Bool) : List Char → List Char × List Char
  | [] => ([], [])
  | c :: cs =>
    if p c then
      let r := spanP p cs
      (c :: r.1, r.2)
    else ([], c :: cs)

/-- Consume the literal `pat` from the front of the input; `none` when the
input does not start with `pat`. -/
def stripLit : List Char → List Char → Option (List Char)
  | [], l => some l
  | _ :: _, [] => none
  | p :: ps, c :: cs => if c = p then stripLit ps cs else none

/-- Substring test (JavaScript `String.includes`). -/
def hasSub (pat : List Char) : List Char → Bool
  | [] => pat.isEmpty
  | c :: cs => (stripLit pat (c :: cs)).isSome || hasSub pat cs

/-- `String.includes` on Lean strings. -/
def strIncludes (s pat : String) : Bool := hasSub pat.data s.data

/-- JavaScript falsiness of an optional string field: absent (`undefined`)
or the empty string. -/
def isFalsyOpt (o : Option String) : Bool := o == none || o == some ""

/-- Optional chaining `o?.includes(pat)` coerced to boolean. -/
def optIncludes (o : Option String) (pat : String) : Bool :=
  match o with
  | some s => strIncludes s pat
  | none => false

/-! ## The CPU/target catalog (`X86_CPUS`, `ARM_CPUS`, `POWER_CPUS`,
`generateCpuConfigs`, `CPU_CONFIGS`) -/

structure CpuConfig where
  label : String
  category : String
  target : Option String := none
  mcpu : Option String := none
  march : Option String := none
  useNative : Bool := false
deriving DecidableEq, Repr

def X86_CPUS : List (String × List String) :=
  [("AVX512",
    ["cascadelake", "cannonlake", "cooperlake", "icelake-server", "icelake-client",
     "tigerlake", "rocketlake", "sapphirerapids", "emeraldrapids", "graniterapids",
     "graniterapids-d", "diamondrapids", "znver4", "znver5", "znver6"]),
   ("AVX2",
    ["haswell", "core-avx2", "broadwell", "skylake", "alderlake", "raptorlake",
     "meteorlake", "gracemont", "arrowlake", "arrowlake-s", "lunarlake",
     "pantherlake", "wildcatlake", "novalake", "sierraforest", "grandridge",
     "clearwaterforest", "bdver4", "znver1", "znver2", "znver3"]),
   ("AVX",
    ["sandybridge", "corei7-avx", "ivybridge", "core-avx-i", "bdver1",
     "bdver2", "bdver3", "lujiazui"]),
   ("SSE",
    ["x86-64", "x86-64-v2", "x86-64-v3", "x86-64-v4", "pentium3m", "pentium-m",
     "pentium4", "pentium4m", "prescott", "nocona", "core2", "nehalem",
     "corei7", "westmere", "bonnell", "atom", "silvermont", "slm", "goldmont",
     "goldmont-plus", "tremont", "athlon", "athlon-tbird", "athlon-4",
     "athlon-xp", "athlon-mp", "k8", "opteron", "athlon64", "athlon-fx",
     "k8-sse3", "opteron-sse3", "athlon64-sse3", "amdfam10", "barcelona",
     "btver1", "btver2", "c3-2", "c7", "nehemiah", "esther", "eden-x2",
     "nano", "nano-1000", "nano-2000", "nano-3000", "nano-x2", "nano-x4"])]

def ARM_CPUS : List (String × List String) :=
  [("A32", ["cortex-a17", "cortex-a53"]),
   ("A64",
    ["cortex-a55", "cortex-a72", "cortex-a73", "cortex-a75", "cortex-a76",
     "cortex-a77", "cortex-a78", "cortex-x1", "cortex-x2", "cortex-x3",
     "cortex-a710", "cortex-a715", "neoverse-n1", "neoverse-n2",
     "neoverse-v1", "neoverse-v2", "ampere1", "ampere1a", "ampere1b"]),
   ("v7", ["cortex-a9", "cortex-a15"])]

def POWER_CPUS : List String := ["pwr8", "pwr9", "pwr10"]

/-- `generateCpuConfigs`: the catalog as an association list in JavaScript
object insertion order (native first, then x86 by category, ARM, PowerPC). -/
def generateCpuConfigs : List (String × CpuConfig) :=
  [("native", { label := "Native (Auto-detect)", category := "Native", useNative := true })]
  ++ (X86_CPUS.map (fun p =>
        p.2.map (fun cpu =>
          ("x86-" ++ cpu,
           ({ label := cpu, category := "x86-64 " ++ p.1,
              march := some cpu, mcpu := some cpu } : CpuConfig))))).flatten
  ++ (ARM_CPUS.map (fun p =>
        p.2.map (fun cpu =>
          ("arm-" ++ cpu,
           ({ label := cpu, category := "ARM " ++ p.1,
              target := some "aarch64-linux-gnu", mcpu := some cpu } : CpuConfig))))).flatten
  ++ POWER_CPUS.map (fun cpu =>
       ("power-" ++ cpu,
        ({ label := cpu, category := "PowerPC",
           target := some "powerpc64le-linux-gnu", mcpu := some cpu } : CpuConfig)))

def CPU_CONFIGS : List (String × CpuConfig) := generateCpuConfigs

/-- `CPU_CONFIGS[cpuKey]` object lookup. -/
def lookupConfig (key : String) : Option CpuConfig :=
  (CPU_CONFIGS.find? (fun kc => kc.1 == key)).map (·.2)

/-- Key-prefix test used to classify catalog entries by family. -/
def keyHasPre (p k : String) : Bool := p.data.isPrefixOf k.data

/-! ## Host compatibility (`isCompatibleTarget`) -/

/-- `isCompatibleTarget(hostArch, targetConfig)`, translated branch by
branch from the source.  `!targetConfig.target` is JavaScript falsiness. -/
def isCompatibleTarget (hostArch : String) (t : CpuConfig) : Bool :=
  if t.useNative then true
  else if strIncludes hostArch "x86_64" || strIncludes hostArch "amd64" then
    isFalsyOpt t.target || t.target == some ""
  else if strIncludes hostArch "aarch64" || strIncludes hostArch "arm64" then
    isFalsyOpt t.target || optIncludes t.target "aarch64"
  else if strIncludes hostArch "ppc64" || strIncludes hostArch "powerpc" then
    isFalsyOpt t.target || optIncludes t.target "powerpc"
  else
    isFalsyOpt t.target

/-- The catalog filter applied in the command handler. -/
def filterCompatible (hostArch : String) : List (String × CpuConfig) :=
  CPU_CONFIGS.filter (fun kc => isCompatibleTarget hostArch kc.2)

/-! ## Toolchain driver: source composition and command construction -/

/-- `config.target && config.target !== 'native'` coerced to boolean. -/
def isCrossCompile (t : CpuConfig) : Bool :=
  !isFalsyOpt t.target && t.target != some "native"

def stdHeaders : List Char :=
  "#include <stddef.h>\n#include <stdint.h>\n".data

def typedefBlock : List Char :=
  "\n#ifndef uchar\ntypedef unsigned char uchar;\n#endif\n#ifndef uint\ntypedef unsigned int uint;\n#endif\n#ifndef ushort\ntypedef unsigned short ushort;\n#endif\n".data

/-- The architecture-selector header block. -/
def archHeader (t : CpuConfig) : List Char :=
  if optIncludes t.target "aarch64" then "#include <arm_neon.h>\n".data
  else if optIncludes t.target "powerpc" then "#include <altivec.h>\n".data
  else "#include <immintrin.h>\n".data

/-- `codeToCompile = headers + codeText` as composed in `analyzeMca`. -/
def composeSource (t : CpuConfig) (codeText : List Char) : List Char :=
  (if isCrossCompile t then [] else stdHeaders) ++ archHeader t ++ typedefBlock
    ++ codeText

/-- The `compileFlags` array built in `analyzeMca`. -/
def compileFlagsList (t : CpuConfig) : List String :=
  if isCrossCompile t then ["-ffreestanding", "-nostdlibinc"] else []

/-- `config.target ? `--target=...` : ''` (template string on a truthy
optional). -/
def targetFlagStr (t : CpuConfig) : String :=
  match t.target with
  | some s => if s = "" then "" else "--target=" ++ s
  | none => ""

/-- The compile-time architecture flag (`-march` for native and x86,
`-mcpu` for ARM/PowerPC); empty when no branch applies. -/
def cpuFlagStr (t : CpuConfig) : String :=
  if t.useNative then "-march=native"
  else if !isFalsyOpt t.march then "-march=" ++ t.march.getD ""
  else if !isFalsyOpt t.mcpu then "-mcpu=" ++ t.mcpu.getD ""
  else ""

/-- The full clang invocation string (workspace directory abstracted as a
parameter; `path.join` modelled as slash concatenation). -/
def clangCmd (t : CpuConfig) (tmpDir : String) : String :=
  "clang -S -O2 " ++ targetFlagStr t ++ " " ++ cpuFlagStr t ++ " "
    ++ String.intercalate " " (compileFlagsList t)
    ++ " -o " ++ tmpDir ++ "/output.s " ++ tmpDir ++ "/input.cpp"

/-- JavaScript template-literal rendering of a possibly-undefined value. -/
def optStr : Option String → String
  | some s => s
  | none => "undefined"

/-- `config.mcpu || (config.useNative ? 'native' : config.march)`. -/
def mcpuForMca (t : CpuConfig) : Option String :=
  if !isFalsyOpt t.mcpu then t.mcpu
  else if t.useNative then some "native"
  else t.march

/-- The llvm-mca invocation string. -/
def mcaCmd (t : CpuConfig) (tmpDir : String) : String :=
  "llvm-mca -mcpu=" ++ optStr (mcpuForMca t) ++ " " ++ tmpDir ++ "/output.s"

/-! ## Report parser

The source extracts the two summary metrics with
`stdout.match(/Total Cycles:\s+(\d+)/)` and
`stdout.match(/Block RThroughput:\s+([\d.]+)/)`.  Each regex is a literal
label followed by `\s+` and a capture of a disjoint character class, so
matching at a given start position is deterministic (greedy runs never have
to backtrack into each other), and `String.match` returns the match at the
leftmost start position where the whole pattern succeeds. -/

/-- Try `Total Cycles:\s+(\d+)` at the current position; returns the
captured digit run. -/
def tryTCAt (l : List Char) : Option (List Char) :=
  match stripLit "Total Cycles:".data l with
  | none => none
  | some r1 =>
    let sp := spanP jsSpace r1
    if sp.1 = [] then none
    else
      let ds := spanP Char.isDigit sp.2
      if ds.1 = [] then none else some ds.1

/-- Try `Block RThroughput:\s+([\d.]+)` at the current position. -/
def tryBTAt (l : List Char) : Option (List Char) :=
  match stripLit "Block RThroughput:".data l with
  | none => none
  | some r1 =>
    let sp := spanP jsSpace r1
    if sp.1 = [] then none
    else
      let ds := spanP (fun c => c.isDigit || c = '.') sp.2
      if ds.1 = [] then none else some ds.1

/-- Leftmost-match scan: try `f` at every start position, left to right. -/
def scanFirst (f : List Char → Option (List Char)) : List Char → Option (List Char)
  | [] => none
  | c :: cs =>
    match f (c :: cs) with
    | some r => some r
    | none => scanFirst f cs

def findTotalCycles (stdout : List Char) : Option (List Char) :=
  scanFirst tryTCAt stdout

def findBlockThroughput (stdout : List Char) : Option (List Char) :=
  scanFirst tryBTAt stdout

/-- `latency = latencyMatch ? latencyMatch[1] : 'N/A'`. -/
def parseLatency (stdout : List Char) : List Char :=
  (findTotalCycles stdout).getD "N/A".data

/-- `throughput = throughputMatch ? throughputMatch[1] : 'N/A'`. -/
def parseThroughput (stdout : List Char) : List Char :=
  (findBlockThroughput stdout).getD "N/A".data

/-- Rest of the input after the first occurrence of `pat`, if any. -/
def dropAfterFirst (pat : List Char) : List Char → Option (List Char)
  | [] => if pat.isEmpty then some [] else none
  | c :: cs =>
    match stripLit pat (c :: cs) with
    | some r => some r
    | none => dropAfterFirst pat cs

/-- Split at the first occurrence of `pat`: the part before it and the part
after it. -/
def splitAtFirst (pat : List Char) : List Char → Option (List Char × List Char)
  | [] => if pat.isEmpty then some ([], []) else none
  | c :: cs =>
    match stripLit pat (c :: cs) with
    | some r => some ([], r)
    | none => (splitAtFirst pat cs).map (fun pr => (c :: pr.1, pr.2))

/-- `.*?\n`: consume dot-matchable characters up to and including the first
newline; fails on a line terminator other than `\n` or at end of input. -/
def toNewline : List Char → Option (List Char)
  | [] => none
  | c :: cs => if c = '\n' then some cs else if dotOk c then toNewline cs else none

/-- Lazy search for `\[1\]    \[2\]    \[3\].*?\n`: the first occurrence of
the bracket header that is followed (within its line) by a newline;
occurrences whose line is cut short by a non-`\n` terminator are skipped,
as the regex engine backtracks past them. -/
def findBracketsNl : List Char → Option (List Char)
  | [] => none
  | c :: cs =>
    match stripLit "[1]    [2]    [3]".data (c :: cs) with
    | some r =>
      match toNewline r with
      | some r2 => some r2
      | none => findBracketsNl cs
    | none => findBracketsNl cs

/-- The capture of
`Instruction Info:[\s\S]*?\[1\]    \[2\]    \[3\].*?\n([\s\S]*?)(?=\n\nResources:|$)`:
text from after the bracket-header line up to the first `\n\nResources:`
or end of input.  The overall match starts at the first `Instruction Info:`
occurrence: if no bracket header plus newline follows it, none follows any
later occurrence either, so the whole regex fails exactly when this cascade
fails. -/
def sectionBody (stdout : List Char) : Option (List Char) :=
  (dropAfterFirst "Instruction Info:".data stdout).bind fun r1 =>
  (findBracketsNl r1).map fun r2 =>
    match splitAtFirst "\n\nResources:".data r2 with
    | some pr => pr.1
    | none => r2

/-- JavaScript `String.trim` (whitespace from both ends). -/
def jsTrim (l : List Char) : List Char :=
  ((l.dropWhile jsSpace).reverse.dropWhile jsSpace).reverse

/-- JavaScript `String.split('\n')`. -/
def splitOnNl : List Char → List (List Char)
  | [] => [[]]
  | c :: cs =>
    if c = '\n' then [] :: splitOnNl cs
    else
      match splitOnNl cs with
      | [] => [[c]]
      | a :: rest => (c :: a) :: rest

/-- The trailing part `\s+.*?\s{2,}(.+)$` of the row regex, with the
backtracking order of a JavaScript engine made explicit: the leading `\s+`
is greedy (longest first), `.*?` is lazy (shortest first), `\s{2,}` is
greedy, and `(.+)` must reach the end of the line.  Returns capture 4. -/
def rowTail (r : List Char) : Option (List Char) :=
  let m0 := (spanP jsSpace r).1.length
  ((List.range (m0 + 1)).reverse).findSome? fun m =>
    if m = 0 then none
    else
      let rest := r.drop m
      (List.range (rest.length + 1)).findSome? fun lzy =>
        if (rest.take lzy).all dotOk then
          let pos := rest.drop lzy
          let wmax := (spanP jsSpace pos).1.length
          ((List.range (wmax + 1)).reverse).findSome? fun w =>
            if w < 2 then none
            else
              let g := pos.drop w
              if g ≠ [] ∧ g.all dotOk then some g else none
        else none

/-- The row regex `^\s*(\d+)\s+(\d+)\s+([\d.]+)\s+.*?\s{2,}(.+)$`.  The
leading groups pair greedy runs over pairwise-disjoint character classes, so
they admit no useful backtracking; the tail is handled by `rowTail`.
Returns captures 1-4. -/
def rowMatch (line : List Char) : Option (List Char × List Char × List Char × List Char) :=
  let r0 := (spanP jsSpace line).2
  let d1 := spanP Char.isDigit r0
  if d1.1 = [] then none
  else
    let s1 := spanP jsSpace d1.2
    if s1.1 = [] then none
    else
      let d2 := spanP Char.isDigit s1.2
      if d2.1 = [] then none
      else
        let s2 := spanP jsSpace d2.2
        if s2.1 = [] then none
        else
          let d3 := spanP (fun c => c.isDigit || c = '.') s2.2
          if d3.1 = [] then none
          else (rowTail d3.2).map fun g4 => (d1.1, d2.1, d3.1, g4)

structure InstrRec where
  order : Nat
  uops : List Char
  latency : List Char
  throughput : List Char
  instruction : List Char
deriving DecidableEq, Repr

/-- The instruction loop of `analyzeMca`: `order` starts at 1 and is
incremented only when a line matches the row regex. -/
def parseRows : List (List Char) → Nat → List InstrRec
  | [], _ => []
  | ln :: rest, ord =>
    match rowMatch ln with
    | some g =>
      { order := ord, uops := g.1, latency := g.2.1,
        throughput := g.2.2.1, instruction := jsTrim g.2.2.2 }
        :: parseRows rest (ord + 1)
    | none => parseRows rest ord

/-- The instruction table extracted from the raw report. -/
def parseInstructions (stdout : List Char) : List InstrRec :=
  match sectionBody stdout with
  | some body => parseRows (splitOnNl (jsTrim body)) 1
  | none => []

/-! ## The analysis request lifecycle as an effect trace -/

structure McaResults where
  latency : List Char
  throughput : List Char
  fullReport : List Char
  assembly : List Char
  cpuTarget : String
  instructions : List InstrRec
deriving DecidableEq, Repr

inductive Effect where
  | mkTmpDir
  | writeFile (content : List Char)
  | spawn (cmd : String)
  | readFile
  | rmTmpDir
deriving DecidableEq, Repr

inductive McaError where
  | unknownCpu (key : String)
  | compileError
  | simulateError
  | noCodeSelected
deriving DecidableEq, Repr

/-- Outcomes of the external world (process exits, tool output, file
contents) that `analyzeMca` reacts to. -/
structure ExtEnv where
  compileFails : Bool
  mcaFails : Bool
  mcaOut : List Char
  asmText : List Char
  tmpDir : String
deriving DecidableEq, Repr

/-- `analyzeMca(codeText, cpuKey)`: result plus the ordered trace of
filesystem/process effects.  The `finally` block appends `rmTmpDir` on every
path that entered the `try` (i.e. on every path after `mkdtemp`). -/
def analyzeMca (codeText : List Char) (cpuKey : String) (env : ExtEnv) :
    Except McaError McaResults × List Effect :=
  match lookupConfig cpuKey with
  | none => (.error (.unknownCpu cpuKey), [])
  | some config =>
    let src := composeSource config codeText
    let pre := [Effect.mkTmpDir, Effect.writeFile src,
                Effect.spawn (clangCmd config env.tmpDir)]
    if env.compileFails then
      (.error .compileError, pre ++ [Effect.rmTmpDir])
    else
      let pre2 := pre ++ [Effect.spawn (mcaCmd config env.tmpDir)]
      if env.mcaFails then
        (.error .simulateError, pre2 ++ [Effect.rmTmpDir])
      else
        (.ok { latency := parseLatency env.mcaOut,
               throughput := parseThroughput env.mcaOut,
               fullReport := env.mcaOut,
               assembly := env.asmText,
               cpuTarget := config.category ++ " - " ++ config.label,
               instructions := parseInstructions env.mcaOut },
         pre2 ++ [Effect.readFile, Effect.rmTmpDir])

/-- The command handler around `analyzeMca`: the selected text is rejected
when it trims to nothing, before the host architecture is even detected
(`uname -m` is the first spawned process on the non-empty path). -/
def runMcaCommand (selText : List Char) (cpuKey : String) (env : ExtEnv) :
    Except McaError McaResults × List Effect :=
  if jsTrim selText = [] then (.error .noCodeSelected, [])
  else
    let r := analyzeMca selText cpuKey env
    (r.1, Effect.spawn "uname -m" :: r.2)

/-! ## Helper lemmas -/

/-- On an ARM host (and not an x86 one, which the earlier branch would
capture), `isCompatibleTarget` reduces to the ARM branch of the source. -/
theorem compat_arm_char (host : String) (t : CpuConfig)
    (h1 : (strIncludes host "aarch64" || strIncludes host "arm64") = true)
    (h2 : (strIncludes host "x86_64" || strIncludes host "amd64") = false) :
    isCompatibleTarget host t
      = (t.useNative || (isFalsyOpt t.target || optIncludes t.target "aarch64")) := by
  unfold isCompatibleTarget
  rw [h1, h2]
  by_cases hn : t.useNative <;> simp [hn]

/-- On a host matching none of the recognized families,
`isCompatibleTarget` reduces to the default branch of the source. -/
theorem compat_unknown_char (host : String) (t : CpuConfig)
    (h1 : (strIncludes host "x86_64" || strIncludes host "amd64") = false)
    (h2 : (strIncludes host "aarch64" || strIncludes host "arm64") = false)
    (h3 : (strIncludes host "ppc64" || strIncludes host "powerpc") = false) :
    isCompatibleTarget host t = (t.useNative || isFalsyOpt t.target) := by
  unfold isCompatibleTarget
  rw [h1, h2, h3]
  by_cases hn : t.useNative <;> simp [hn]

/-- If the leftmost-match scan fails at every start position, it fails. -/
theorem scanFirst_eq_none (f : List Char → Option (List Char)) (l : List Char)
    (h : ∀ n, n < l.length → f (l.drop n) = none) : scanFirst f l = none := by
  induction l with
  | nil => rfl
  | cons c cs ih =>
    have h0 : f (c :: cs) = none := by simpa using h 0 (by simp)
    unfold scanFirst
    rw [h0]
    exact ih (fun n hn => by simpa using h (n + 1) (by simpa using Nat.succ_lt_succ hn))

/-- One step of the scan when the current position does not match. -/
theorem scanFirst_cons_none {f : List Char → Option (List Char)} {c : Char}
    {cs : List Char} (h0 : f (c :: cs) = none) :
    scanFirst f (c :: cs) = scanFirst f cs := by
  show (match f (c :: cs) with | some r => some r | none => scanFirst f cs)
      = scanFirst f cs
  rw [h0]

/-- If the scan fails at every position inside a prefix, it continues past
that prefix. -/
theorem scanFirst_append (f : List Char → Option (List Char)) (l1 l2 : List Char)
    (h : ∀ n, n < l1.length → f ((l1 ++ l2).drop n) = none) :
    scanFirst f (l1 ++ l2) = scanFirst f l2 := by
  induction l1 with
  | nil => rfl
  | cons c cs ih =>
    have h0 : f (c :: (cs ++ l2)) = none := by simpa using h 0 (by simp)
    calc scanFirst f ((c :: cs) ++ l2)
        = scanFirst f (cs ++ l2) := by simpa using scanFirst_cons_none h0
      _ = scanFirst f l2 :=
          ih (fun n hn => by simpa using h (n + 1) (by simpa using Nat.succ_lt_succ hn))

/-- The `order` fields produced by the parse loop are consecutive starting
from the loop's counter. -/
theorem parseRows_map_order (ls : List (List Char)) (ord : Nat) :
    (parseRows ls ord).map InstrRec.order
      = List.range' ord (parseRows ls ord).length := by
  induction ls generalizing ord with
  | nil => simp [parseRows]
  | cons ln rest ih =>
    unfold parseRows
    cases h : rowMatch ln with
    | none => exact ih ord
    | some g => simp [List.range'_succ, ih (ord + 1)]

/-- The parse loop emits exactly one record per line matching the row
regex; skipped lines contribute nothing. -/
theorem parseRows_length (ls : List (List Char)) (ord : Nat) :
    (parseRows ls ord).length = ls.countP (fun ln => (rowMatch ln).isSome) := by
  induction ls generalizing ord with
  | nil => simp [parseRows]
  | cons ln rest ih =>
    unfold parseRows
    cases h : rowMatch ln with
    | none => simp [List.countP_cons, h, ih ord]
    | some g => simp [List.countP_cons, h, ih (ord + 1)]

/-! ## Claim C1 -/

/-- An x86 catalog entry (no cross triple, `-march`/`-mcpu` both set). -/
def cfgX86Cascadelake : CpuConfig :=
  { label := "cascadelake", category := "x86-64 AVX512",
    march := some "cascadelake", mcpu := some "cascadelake" }

/-- Claim C1 is false on the code: on an ARM host (machine string
`aarch64`) the catalog's x86 target `x86-cascadelake` — a non-cross target
of a non-ARM family, neither native-auto nor ARM — is accepted by the
compatibility filter, not rejected as the claim states. -/
theorem c1_counterexample :
    ("x86-cascadelake", cfgX86Cascadelake) ∈ CPU_CONFIGS
    ∧ cfgX86Cascadelake.useNative = false
    ∧ cfgX86Cascadelake.target = none
    ∧ (strIncludes "aarch64" "aarch64" = true
        ∧ strIncludes "aarch64" "x86_64" = false
        ∧ strIncludes "aarch64" "amd64" = false)
    ∧ isCompatibleTarget "aarch64" cfgX86Cascadelake = true := by
  decide

/-- Claim C1 (amended): for every host whose architecture string contains
`aarch64`/`arm64` (and none of `x86_64`/`amd64`), the compatibility filter
accepts the native-auto target, the ARM-family targets, and also every
non-cross target (all x86 targets, which carry no cross triple); exactly
the PowerPC targets are rejected. -/
theorem c1_arm_host_filter (host k : String) (t : CpuConfig)
    (h1 : (strIncludes host "aarch64" || strIncludes host "arm64") = true)
    (h2 : (strIncludes host "x86_64" || strIncludes host "amd64") = false)
    (hmem : (k, t) ∈ CPU_CONFIGS) :
    isCompatibleTarget host t = !keyHasPre "power-" k := by
  rw [compat_arm_char host t h1 h2]
  have hall : CPU_CONFIGS.all (fun kc =>
      (kc.2.useNative || (isFalsyOpt kc.2.target || optIncludes kc.2.target "aarch64"))
        == !keyHasPre "power-" kc.1) = true := by decide
  have h := List.all_eq_true.mp hall (k, t) hmem
  simpa using h

/-- Witness for C1: the amended statement evaluated on the ARM host
`arm64` at an ARM entry and at the PowerPC entry. -/
theorem c1_arm_host_filter_witness :
    isCompatibleTarget "arm64"
        ({ label := "pwr9", category := "PowerPC",
           target := some "powerpc64le-linux-gnu", mcpu := some "pwr9" } : CpuConfig)
      = !keyHasPre "power-" "power-pwr9"
    ∧ isCompatibleTarget "arm64"
        ({ label := "cortex-a72", category := "ARM A64",
           target := some "aarch64-linux-gnu", mcpu := some "cortex-a72" } : CpuConfig)
      = true := by
  constructor
  · exact c1_arm_host_filter "arm64" "power-pwr9" _ (by decide) (by decide) (by decide)
  · have h := c1_arm_host_filter "arm64" "arm-cortex-a72"
      ({ label := "cortex-a72", category := "ARM A64",
         target := some "aarch64-linux-gnu", mcpu := some "cortex-a72" } : CpuConfig)
      (by decide) (by decide) (by decide)
    rw [h]
    decide

/-! ## Claim C2 -/

/-- Another x86 catalog entry, used for the unknown-host counterexample. -/
def cfgX86Skylake : CpuConfig :=
  { label := "skylake", category := "x86-64 AVX2",
    march := some "skylake", mcpu := some "skylake" }

/-- Claim C2 is false on the code: on a host of unknown family (machine
string `riscv64`, matching none of the recognized tokens) the catalog's
x86 target `x86-skylake` — not the native-auto target — is accepted by
the compatibility filter, not rejected as the claim states. -/
theorem c2_counterexample :
    ("x86-skylake", cfgX86Skylake) ∈ CPU_CONFIGS
    ∧ cfgX86Skylake.useNative = false
    ∧ (strIncludes "riscv64" "x86_64" = false
        ∧ strIncludes "riscv64" "amd64" = false
        ∧ strIncludes "riscv64" "aarch64" = false
        ∧ strIncludes "riscv64" "arm64" = false
        ∧ strIncludes "riscv64" "ppc64" = false
        ∧ strIncludes "riscv64" "powerpc" = false)
    ∧ isCompatibleTarget "riscv64" cfgX86Skylake = true := by
  decide

/-- Claim C2 (amended): for every host whose architecture string matches
none of the recognized family tokens, the compatibility filter accepts the
native-auto target and every catalog target without a cross triple (all
x86 targets), and rejects exactly the cross targets (ARM and PowerPC). -/
theorem c2_unknown_host_filter (host k : String) (t : CpuConfig)
    (h1 : (strIncludes host "x86_64" || strIncludes host "amd64") = false)
    (h2 : (strIncludes host "aarch64" || strIncludes host "arm64") = false)
    (h3 : (strIncludes host "ppc64" || strIncludes host "powerpc") = false)
    (hmem : (k, t) ∈ CPU_CONFIGS) :
    isCompatibleTarget host t = (k == "native" || keyHasPre "x86-" k) := by
  rw [compat_unknown_char host t h1 h2 h3]
  have hall : CPU_CONFIGS.all (fun kc =>
      (kc.2.useNative || isFalsyOpt kc.2.target)
        == (kc.1 == "native" || keyHasPre "x86-" kc.1)) = true := by decide
  have h := List.all_eq_true.mp hall (k, t) hmem
  simpa using h

/-- Witness for C2: the amended statement evaluated on host `riscv64` at
the native entry and at an ARM entry. -/
theorem c2_unknown_host_filter_witness :
    isCompatibleTarget "riscv64"
        ({ label := "Native (Auto-detect)", category := "Native",
           useNative := true } : CpuConfig)
      = ("native" == "native" || keyHasPre "x86-" "native")
    ∧ isCompatibleTarget "riscv64"
        ({ label := "cortex-a53", category := "ARM A32",
           target := some "aarch64-linux-gnu", mcpu := some "cortex-a53" } : CpuConfig)
      = ("arm-cortex-a53" == "native" || keyHasPre "x86-" "arm-cortex-a53") := by
  exact ⟨c2_unknown_host_filter "riscv64" "native" _ (by decide) (by decide) (by decide)
          (by decide),
         c2_unknown_host_filter "riscv64" "arm-cortex-a53" _ (by decide) (by decide)
          (by decide) (by decide)⟩

/-! ## Claim C3 -/

/-- Claim C3: the instruction records carry `order` values forming the
contiguous sequence 1, 2, ..., n; `n` is exactly the number of lines of the
instruction-table section matching the row shape, so malformed or blank
lines inside the section are skipped without consuming an order slot. -/
theorem c3_order_contiguous (stdout : List Char) :
    (parseInstructions stdout).map InstrRec.order
        = List.range' 1 (parseInstructions stdout).length
    ∧ (∀ body, sectionBody stdout = some body →
        (parseInstructions stdout).length
          = (splitOnNl (jsTrim body)).countP (fun ln => (rowMatch ln).isSome)) := by
  constructor
  · unfold parseInstructions
    cases h : sectionBody stdout with
    | none => simp
    | some body => exact parseRows_map_order _ 1
  · intro body hb
    unfold parseInstructions
    rw [hb]
    exact parseRows_length _ 1

/-- A small report whose instruction section holds three well-formed rows
with a blank separator line between the first two. -/
def reportC3 : List Char :=
  "Instruction Info:\n[1]    [2]    [3]    Instructions:\n 1      4     1.33   add w0, w0, w1\n\n 2      1     0.50   mul w2, w0, w0\n 1      1     0.25   ret\n".data

/-- The instruction-section capture the parser extracts from `reportC3`. -/
def bodyC3 : List Char :=
  " 1      4     1.33   add w0, w0, w1\n\n 2      1     0.50   mul w2, w0, w0\n 1      1     0.25   ret\n".data

/-- Witness for C3: on `reportC3` the blank line inside the section is
skipped and the three rows get orders 1, 2, 3. -/
theorem c3_order_contiguous_witness :
    (parseInstructions reportC3).length
        = (splitOnNl (jsTrim bodyC3)).countP (fun ln => (rowMatch ln).isSome)
    ∧ (parseInstructions reportC3).map InstrRec.order = [1, 2, 3] := by
  refine ⟨(c3_order_contiguous reportC3).2 bodyC3 (by decide), by decide⟩

/-! ## Claim C4 -/

/-- Claim C4: a report with no position matching the `Total Cycles` (resp.
`Block RThroughput`) field yields the distinguished `N/A` sentinel for that
metric — which is neither the string `0` nor empty — and a report whose
instruction-table section does not match yields an empty instruction
sequence; the parser is a total function, so no error is raised. -/
theorem c4_unavailable_sentinels (stdout : List Char) :
    ((∀ n, n < stdout.length → tryTCAt (stdout.drop n) = none) →
        parseLatency stdout = "N/A".data)
    ∧ ((∀ n, n < stdout.length → tryBTAt (stdout.drop n) = none) →
        parseThroughput stdout = "N/A".data)
    ∧ (sectionBody stdout = none → parseInstructions stdout = [])
    ∧ "N/A".data ≠ "0".data ∧ "N/A".data ≠ [] := by
  refine ⟨?_, ?_, ?_, by decide, by decide⟩
  · intro h
    unfold parseLatency findTotalCycles
    rw [scanFirst_eq_none _ _ h]
    rfl
  · intro h
    unfold parseThroughput findBlockThroughput
    rw [scanFirst_eq_none _ _ h]
    rfl
  · intro h
    unfold parseInstructions
    rw [h]

/-- A report text containing neither summary label nor a table section. -/
def reportC4 : List Char := "clang: error: no such file\n".data

/-- Witness for C4: both sentinels and the empty table on `reportC4`. -/
theorem c4_unavailable_sentinels_witness :
    parseLatency reportC4 = "N/A".data
    ∧ parseThroughput reportC4 = "N/A".data
    ∧ parseInstructions reportC4 = [] :=
  ⟨(c4_unavailable_sentinels reportC4).1 (by decide),
   (c4_unavailable_sentinels reportC4).2.1 (by decide),
   (c4_unavailable_sentinels reportC4).2.2.1 (by decide)⟩

/-! ## Claim C5 -/

/-- The two summary lines of C5, as one block. -/
def summaryLinesC5 : List Char :=
  "Total Cycles: 42\nBlock RThroughput: 3.5\n".data

/-- Claim C5: a report containing the lines `Total Cycles: 42` and
`Block RThroughput: 3.5` as the first occurrences of their labels (the
hypotheses say no earlier position matches) parses to exactly `42` and
`3.5`; whatever follows the lines is ignored. -/
theorem c5_summary_metrics (pre tail : List Char)
    (hT : ∀ n, n < pre.length →
        tryTCAt ((pre ++ (summaryLinesC5 ++ tail)).drop n) = none)
    (hB : ∀ n, n < pre.length →
        tryBTAt ((pre ++ (summaryLinesC5 ++ tail)).drop n) = none) :
    parseLatency (pre ++ (summaryLinesC5 ++ tail)) = "42".data
    ∧ parseThroughput (pre ++ (summaryLinesC5 ++ tail)) = "3.5".data := by
  constructor
  · unfold parseLatency findTotalCycles
    rw [scanFirst_append _ _ _ hT]
    rfl
  · unfold parseThroughput findBlockThroughput
    rw [scanFirst_append _ _ _ hB]
    rfl

/-- Witness for C5: a concrete report around the two summary lines. -/
theorem c5_summary_metrics_witness :
    parseLatency ("Report of x.s:\n".data ++ (summaryLinesC5 ++ "\nend".data))
        = "42".data
    ∧ parseThroughput ("Report of x.s:\n".data ++ (summaryLinesC5 ++ "\nend".data))
        = "3.5".data :=
  c5_summary_metrics "Report of x.s:\n".data "\nend".data (by decide) (by decide)

/-! ## Claim C6 -/

/-- A concrete external environment used by the lifecycle witnesses. -/
def envOk : ExtEnv :=
  { compileFails := false, mcaFails := false, mcaOut := [], asmText := [],
    tmpDir := "/tmp/llvm-mca-abc123" }

/-- Claim C6: a request whose selected text trims to nothing fails in the
command handler with an empty effect trace (no process spawned, no
workspace created, not even the host-detection spawn); a request naming a
target id absent from the catalog fails inside the analysis with an empty
effect trace (the guard precedes `mkdtemp` and every spawn). -/
theorem c6_invalid_request (text : List Char) (key : String) (env : ExtEnv) :
    (jsTrim text = [] →
      (runMcaCommand text key env).1 = .error .noCodeSelected
      ∧ (runMcaCommand text key env).2 = [])
    ∧ (lookupConfig key = none →
      (analyzeMca text key env).1 = .error (.unknownCpu key)
      ∧ (analyzeMca text key env).2 = []) := by
  constructor
  · intro h
    unfold runMcaCommand
    rw [if_pos h]
    exact ⟨rfl, rfl⟩
  · intro h
    unfold analyzeMca
    rw [h]
    exact ⟨rfl, rfl⟩

/-- Witness for C6: empty selection and an unknown target id. -/
theorem c6_invalid_request_witness :
    (runMcaCommand [] "x86-skylake" envOk).2 = []
    ∧ (analyzeMca "int x;".data "sparc-ultra" envOk).1
        = .error (.unknownCpu "sparc-ultra")
    ∧ (analyzeMca "int x;".data "sparc-ultra" envOk).2 = [] :=
  ⟨((c6_invalid_request [] "x86-skylake" envOk).1 (by decide)).2,
   ((c6_invalid_request "int x;".data "sparc-ultra" envOk).2 (by decide)).1,
   ((c6_invalid_request "int x;".data "sparc-ultra" envOk).2 (by decide)).2⟩

/-! ## Claim C7 -/

/-- Claim C7: on every path of the analysis that created the temporary
workspace — including the paths where the compile stage or the simulate
stage fails — the trace ends with the recursive workspace removal; no exit
path skips cleanup. -/
theorem c7_cleanup_on_all_paths (text : List Char) (key : String) (env : ExtEnv)
    (h : Effect.mkTmpDir ∈ (analyzeMca text key env).2) :
    (analyzeMca text key env).2.getLast? = some Effect.rmTmpDir := by
  unfold analyzeMca at h ⊢
  cases hk : lookupConfig key with
  | none =>
    rw [hk] at h
    simp at h
  | some cfg =>
    by_cases hc : env.compileFails <;> by_cases hm : env.mcaFails <;>
      simp [hc, hm]

/-- An environment in which the compile stage fails. -/
def envCompileFail : ExtEnv :=
  { compileFails := true, mcaFails := false, mcaOut := [], asmText := [],
    tmpDir := "/tmp/llvm-mca-xyz789" }

/-- Witness for C7: the failing-compile path still removes the workspace
last. -/
theorem c7_cleanup_on_all_paths_witness :
    (analyzeMca "int x;".data "arm-cortex-a72" envCompileFail).2.getLast?
      = some Effect.rmTmpDir :=
  c7_cleanup_on_all_paths "int x;".data "arm-cortex-a72" envCompileFail (by decide)

/-! ## Claim C8 -/

/-- The target carries a cross triple (a non-empty `target` field); by
claim C10 this is what "cross-compiled target" means for catalog entries. -/
def hasCrossTriple (t : CpuConfig) : Bool := !isFalsyOpt t.target

/-- The header block `composeSource` puts before the caller's text. -/
def headersOf (t : CpuConfig) : List Char :=
  (if isCrossCompile t then [] else stdHeaders) ++ archHeader t ++ typedefBlock

/-- The header block as claim C8 describes it: no standard-library includes
for cross-compiled targets, else `stddef.h` and `stdint.h`; exactly one
intrinsics header — `arm_neon.h` when the cross triple contains `aarch64`,
`altivec.h` when it contains `powerpc`, `immintrin.h` otherwise (including
native-auto); then the guarded `uchar`/`uint`/`ushort` typedef block.
Stated from the claim's words for comparison with `headersOf`. -/
def claimedHeaders (t : CpuConfig) : List Char :=
  (if hasCrossTriple t then [] else stdHeaders)
  ++ (if optIncludes t.target "aarch64" then "#include <arm_neon.h>\n".data
      else if optIncludes t.target "powerpc" then "#include <altivec.h>\n".data
      else "#include <immintrin.h>\n".data)
  ++ typedefBlock

/-- Claim C8: for every catalog target, the source text composed for
compilation is exactly the claimed header block followed by the caller's
text verbatim. -/
theorem c8_composed_source (k : String) (t : CpuConfig)
    (hmem : (k, t) ∈ CPU_CONFIGS) (codeText : List Char) :
    composeSource t codeText = claimedHeaders t ++ codeText := by
  have hall : CPU_CONFIGS.all (fun kc => headersOf kc.2 == claimedHeaders kc.2) = true := by
    decide
  have h := List.all_eq_true.mp hall (k, t) hmem
  have h2 : headersOf t = claimedHeaders t := by simpa using h
  show (if isCrossCompile t then [] else stdHeaders) ++ archHeader t ++ typedefBlock
      ++ codeText = claimedHeaders t ++ codeText
  rw [show (if isCrossCompile t then [] else stdHeaders) ++ archHeader t ++ typedefBlock
      = headersOf t from rfl, h2]

/-- Witness for C8: the composed source for the ARM target `cortex-a72`
(freestanding, NEON header) around a concrete snippet. -/
theorem c8_composed_source_witness :
    composeSource
        ({ label := "cortex-a72", category := "ARM A64",
           target := some "aarch64-linux-gnu", mcpu := some "cortex-a72" } : CpuConfig)
        "int f;".data
      = claimedHeaders
          ({ label := "cortex-a72", category := "ARM A64",
             target := some "aarch64-linux-gnu", mcpu := some "cortex-a72" } : CpuConfig)
        ++ "int f;".data
    ∧ composeSource
        ({ label := "cortex-a72", category := "ARM A64",
           target := some "aarch64-linux-gnu", mcpu := some "cortex-a72" } : CpuConfig)
        "int f;".data
      = "#include <arm_neon.h>\n\n#ifndef uchar\ntypedef unsigned char uchar;\n#endif\n#ifndef uint\ntypedef unsigned int uint;\n#endif\n#ifndef ushort\ntypedef unsigned short ushort;\n#endif\nint f;".data :=
  ⟨c8_composed_source "arm-cortex-a72" _ (by decide) "int f;".data, by decide⟩

/-! ## Claim C9 -/

/-- Claim C9: every catalog target resolves a CPU identifier for the
simulator — `-mcpu` is always present in the llvm-mca invocation — whose
value equals the `-march` identifier for x86 targets, the compile-time
`-mcpu` value for ARM/PowerPC targets, and the `native` auto-detect
sentinel for the native-auto target. -/
theorem c9_simulator_cpu_flag :
    (∀ kc ∈ CPU_CONFIGS,
      (mcpuForMca kc.2).isSome = true
      ∧ (kc.2.useNative = true → mcpuForMca kc.2 = some "native")
      ∧ (kc.2.march.isSome = true →
          mcpuForMca kc.2 = kc.2.march
          ∧ cpuFlagStr kc.2 = "-march=" ++ kc.2.march.getD "")
      ∧ (kc.2.march.isSome = false ∧ kc.2.useNative = false →
          mcpuForMca kc.2 = kc.2.mcpu
          ∧ cpuFlagStr kc.2 = "-mcpu=" ++ kc.2.mcpu.getD ""))
    ∧ (∀ (t : CpuConfig) (tmpDir : String),
        mcaCmd t tmpDir
          = "llvm-mca -mcpu=" ++ optStr (mcpuForMca t) ++ " " ++ tmpDir
              ++ "/output.s") :=
  ⟨by decide, fun t tmpDir => rfl⟩

/-- Witness for C9: the native-auto entry resolves the `native` sentinel
and its full simulator command. -/
theorem c9_simulator_cpu_flag_witness :
    mcpuForMca ({ label := "Native (Auto-detect)", category := "Native",
                  useNative := true } : CpuConfig) = some "native"
    ∧ mcaCmd ({ label := "Native (Auto-detect)", category := "Native",
                useNative := true } : CpuConfig) "/w"
        = "llvm-mca -mcpu=native /w/output.s" := by
  constructor
  · exact (c9_simulator_cpu_flag.1
      ("native", ({ label := "Native (Auto-detect)", category := "Native",
                    useNative := true } : CpuConfig)) (by decide)).2.1 rfl
  · rw [c9_simulator_cpu_flag.2
      ({ label := "Native (Auto-detect)", category := "Native",
         useNative := true } : CpuConfig) "/w"]
    decide

/-! ## Claim C10 -/

/-- Claim C10: every ARM catalog entry carries the fixed cross triple
`aarch64-linux-gnu`, every PowerPC entry `powerpc64le-linux-gnu`, and no
x86 entry nor the native-auto entry carries any cross triple; every entry
with a triple is compiled as a freestanding cross-compilation — `--target`
plus `-ffreestanding -nostdlibinc` — by a command that takes no host
input, hence even when the host family matches the target family. -/
theorem c10_cross_triples :
    (∀ kc ∈ CPU_CONFIGS,
      (keyHasPre "arm-" kc.1 = true → kc.2.target = some "aarch64-linux-gnu")
      ∧ (keyHasPre "power-" kc.1 = true → kc.2.target = some "powerpc64le-linux-gnu")
      ∧ ((keyHasPre "x86-" kc.1 = true ∨ kc.1 = "native") → kc.2.target = none)
      ∧ ((keyHasPre "arm-" kc.1 = true ∨ keyHasPre "power-" kc.1 = true) →
          isCrossCompile kc.2 = true))
    ∧ (∀ (t : CpuConfig), isCrossCompile t = true →
        compileFlagsList t = ["-ffreestanding", "-nostdlibinc"]
        ∧ (∀ s, t.target = some s → targetFlagStr t = "--target=" ++ s))
    ∧ (∀ (t : CpuConfig) (tmpDir : String),
        clangCmd t tmpDir
          = "clang -S -O2 " ++ targetFlagStr t ++ " " ++ cpuFlagStr t ++ " "
              ++ String.intercalate " " (compileFlagsList t)
              ++ " -o " ++ tmpDir ++ "/output.s " ++ tmpDir ++ "/input.cpp") := by
  refine ⟨by decide, ?_, fun t tmpDir => rfl⟩
  intro t h
  constructor
  · unfold compileFlagsList
    rw [if_pos h]
  · intro s hs
    have hne : s ≠ "" := by
      intro he
      subst he
      unfold isCrossCompile at h
      rw [hs] at h
      simp [isFalsyOpt] at h
    unfold targetFlagStr
    rw [hs]
    simp [hne]

/-- The PowerPC catalog entry used by the C10 witness. -/
def cfgPwr8 : CpuConfig :=
  { label := "pwr8", category := "PowerPC",
    target := some "powerpc64le-linux-gnu", mcpu := some "pwr8" }

/-- Witness for C10: the PowerPC entry `pwr8` carries the PowerPC triple
and its compile command carries the cross flags. -/
theorem c10_cross_triples_witness :
    cfgPwr8.target = some "powerpc64le-linux-gnu"
    ∧ compileFlagsList cfgPwr8 = ["-ffreestanding", "-nostdlibinc"]
    ∧ targetFlagStr cfgPwr8 = "--target=" ++ "powerpc64le-linux-gnu"
    ∧ clangCmd cfgPwr8 "/w"
        = "clang -S -O2 --target=powerpc64le-linux-gnu -mcpu=pwr8 -ffreestanding -nostdlibinc -o /w/output.s /w/input.cpp" := by
  have hmem : ("power-pwr8", cfgPwr8) ∈ CPU_CONFIGS := by decide
  have hcross : isCrossCompile cfgPwr8 = true := by decide
  refine ⟨(c10_cross_triples.1 ("power-pwr8", cfgPwr8) hmem).2.1 (by decide),
          (c10_cross_triples.2.1 cfgPwr8 hcross).1,
          (c10_cross_triples.2.1 cfgPwr8 hcross).2 "powerpc64le-linux-gnu" rfl,
          ?_⟩
  rw [c10_cross_triples.2.2 cfgPwr8 "/w"]
  decide

end CodeSimd
